import Mathlib

/-!
Shallow embedding of the hug-keepalive poll-resolve-detect-update loop
(`src/index.ts`) and proofs of the specification claims.

The embedding covers: the failure classifier (markers, expected status
codes), the per-origin cookie jar with its Set-Cookie update batches, the
cookie header serialization round trip, wrapper-page iframe extraction and
target resolution, the retry loop of one poll cycle, and the Uptime Kuma
push.  Network effects are supplied as explicit per-attempt outcome values;
clock readings are supplied as explicit durations.
-/

set_option autoImplicit false

namespace HugKeepAlive

/-- Substring test over character lists.  Models JavaScript
`String.prototype.includes` as used by `containsFailureMarker`. -/
def listContainsSub (pat : List Char) : List Char → Bool
  | [] => pat.isEmpty
  | c :: rest => pat.isPrefixOf (c :: rest) || listContainsSub pat rest

/-- The literal failure markers (`FAILURE_MARKERS` in `src/index.ts`). -/
def FAILURE_MARKERS : List String :=
  ["Sorry, we can\x27t find the page you are looking for.",
   "https://huggingface.co/front/assets/huggingface_logo.svg"]

/-- Embeds `containsFailureMarker(responseBody)`: true iff the response body
contains any of the literal failure markers. -/
def containsFailureMarker (responseBody : String) : Bool :=
  FAILURE_MARKERS.any (fun marker => listContainsSub marker.data responseBody.data)

/-- The three outcomes of the failure classifier (spec section 4.3). -/
inductive Outcome
  | success
  | contentFailure
  | unexpectedStatus
deriving DecidableEq, Repr

/-- The failure classifier, with the branch order taken from the
`hasFailureMarker` / `isExpectedStatusCode` branches of `keepAlive`
(`src/index.ts` lines 582-635): marker check first, then membership of the
status code in the expected set. -/
def classify (expectedStatusCodes : List Nat) (responseBody : String)
    (statusCode : Nat) : Outcome :=
  if containsFailureMarker responseBody then Outcome.contentFailure
  else if !(expectedStatusCodes.contains statusCode) then Outcome.unexpectedStatus
  else Outcome.success

/-- Scans a character list for the first occurrence of the three characters
`://` and returns what follows it. -/
def hostAfterSep : List Char → Option (List Char)
  | ':' :: '/' :: '/' :: rest => some rest
  | _ :: rest => hostAfterSep rest
  | [] => none

/-- Embeds `extractDomain(url)`.  The source delegates to the host-language
URL parser (`new URL(url).hostname`, with a catch-all returning `""`); this
models it for absolute URLs of the shape `scheme://host[:port][/path...]`:
the hostname is what stands between `://` and the next `/`, `:`, `?` or `#`,
and any string without `://` yields `""`. -/
def extractDomain (url : String) : String :=
  match hostAfterSep url.data with
  | none => ""
  | some rest =>
    String.mk (rest.takeWhile (fun c => !(c == '/' || c == ':' || c == '?' || c == '#')))

/-- A cookie object: insertion-ordered association list of cookie name to
cookie value, modelling the plain JavaScript object `CookieObject`. -/
abbrev CookieObject := List (String × String)

/-- The per-domain cookie store `CookieStorage`: insertion-ordered
association list from domain to cookie object. -/
abbrev CookieStorage := List (String × CookieObject)

/-- Reads `obj[name]` on a cookie object. -/
def getEntry (obj : CookieObject) (name : String) : Option String :=
  match obj with
  | [] => none
  | (n, v) :: rest => if n = name then some v else getEntry rest name

/-- Models the JavaScript assignment `obj[name] = value`: overwrites the
entry in place if the name is present, otherwise appends it. -/
def setEntry (obj : CookieObject) (name value : String) : CookieObject :=
  match obj with
  | [] => [(name, value)]
  | (n, v) :: rest =>
    if n = name then (name, value) :: rest else (n, v) :: setEntry rest name value

/-- Reads `cookieStorage[domain]`. -/
def getJar (st : CookieStorage) (domain : String) : Option CookieObject :=
  match st with
  | [] => none
  | (d, obj) :: rest => if d = domain then some obj else getJar rest domain

/-- Models the JavaScript assignment `cookieStorage[domain] = obj`. -/
def setJar (st : CookieStorage) (domain : String) (obj : CookieObject) : CookieStorage :=
  match st with
  | [] => [(domain, obj)]
  | (d, o) :: rest =>
    if d = domain then (domain, obj) :: rest else (d, o) :: setJar rest domain obj

/-- Models `cookieStorage[domain][name] = value` (the domain entry is
guaranteed to exist by `updateCookies` before this runs). -/
def setJarValue (st : CookieStorage) (domain name value : String) : CookieStorage :=
  setJar st domain (setEntry ((getJar st domain).getD []) name value)

/-- Convenience read of `cookieStorage[domain][name]`. -/
def lookupCookie (st : CookieStorage) (domain name : String) : Option String :=
  match getJar st domain with
  | none => none
  | some obj => getEntry obj name

/-- One `Set-Cookie` header directive as consumed by `updateCookies`.
Parsing a directive is delegated by the source to the external cookie
library (`cookie.parseSetCookie`); a directive is modelled by that call's
outcome: `malformed` when the parse throws, `parsed name value` when it
returns a record (an absent or falsy `name`/`value` is modelled by the empty
string, matching the JavaScript truthiness test `parsed.name && parsed.value`). -/
inductive SetCookieDirective
  | malformed
  | parsed (name value : String)
deriving DecidableEq, Repr

/-- The `for (const setCookieHeader of setCookieHeaders)` loop body of
`updateCookies` (`src/index.ts` lines 300-322), returning the new storage,
the `updateCount`, and the number of parse failures skipped with a warning. -/
def applyDirectives (domain : String) (st : CookieStorage) :
    List SetCookieDirective → CookieStorage × Nat × Nat
  | [] => (st, 0, 0)
  | SetCookieDirective.malformed :: rest =>
    let r := applyDirectives domain st rest
    (r.1, r.2.1, r.2.2 + 1)
  | SetCookieDirective.parsed name value :: rest =>
    if name ≠ "" ∧ value ≠ "" then
      let r := applyDirectives domain (setJarValue st domain name value) rest
      (r.1, r.2.1 + 1, r.2.2)
    else applyDirectives domain st rest

/-- Result of one `updateCookies` call: the new storage, how many name/value
pairs were applied (`updateCount`), and how many directives failed to parse
and were skipped with a warning. -/
structure UpdateResult where
  storage : CookieStorage
  updateCount : Nat
  skipCount : Nat
deriving DecidableEq, Repr

/-- Embeds `updateCookies(url, setCookieHeaders)` (`src/index.ts` lines
285-328): extract the domain (empty domain aborts the whole update), create
the domain's jar entry if absent, then process every directive
independently. -/
def updateCookies (st : CookieStorage) (url : String)
    (dirs : List SetCookieDirective) : UpdateResult :=
  let domain := extractDomain url
  if domain = "" then ⟨st, 0, 0⟩
  else
    let st1 := match getJar st domain with
      | some _ => st
      | none => setJar st domain []
    let r := applyDirectives domain st1 dirs
    ⟨r.1, r.2.1, r.2.2⟩

/-- Renders one jar entry as `name=value`. -/
def renderPair (p : String × String) : String := p.1 ++ "=" ++ p.2

/-- Models the external cookie library call `cookie.stringifyCookie(obj)`
used by `serializeCookie`: joins the `name=value` pairs with `"; "`.  (The
library percent-encodes values; on cookie-safe characters, the only ones the
claims exercise, the encoding is the identity and is omitted here.) -/
def stringifyCookie : CookieObject → String
  | [] => ""
  | [p] => renderPair p
  | p :: q :: rest => renderPair p ++ "; " ++ stringifyCookie (q :: rest)

/-- Splits a character list at every `;`. -/
def splitOnSemis : List Char → List (List Char)
  | [] => [[]]
  | c :: rest =>
    if c = ';' then [] :: splitOnSemis rest
    else
      match splitOnSemis rest with
      | [] => [[c]]
      | s :: ss => (c :: s) :: ss

/-- Splits a character list at the first `=`, returning the parts before and
after it; `none` when there is no `=`. -/
def splitFirstEq : List Char → Option (List Char × List Char)
  | [] => none
  | c :: rest =>
    if c = '=' then some ([], rest)
    else (splitFirstEq rest).map (fun p => (c :: p.1, p.2))

/-- Removes leading and trailing spaces. -/
def trimSpaces (cs : List Char) : List Char :=
  ((cs.dropWhile (fun c => c == ' ')).reverse.dropWhile (fun c => c == ' ')).reverse

/-- Parses one `name=value` segment of a cookie header; segments without `=`
are dropped. -/
def parseSeg (seg : List Char) : Option (String × String) :=
  match splitFirstEq (trimSpaces seg) with
  | none => none
  | some (n, v) => some (String.mk n, String.mk v)

/-- Models the external cookie library call `cookie.parseCookie(str)` used
by `initCookie`: splits the header string on `;`, trims each segment, and
splits it at its first `=` into a name and value pair. -/
def parseCookie (s : String) : CookieObject :=
  (splitOnSemis s.data).filterMap parseSeg

/-- Embeds `serializeCookie(url)` (`src/index.ts` lines 268-279) over an
explicit storage: empty string when the domain cannot be extracted or has no
jar entry, otherwise the stringified jar entry. -/
def serializeCookie (st : CookieStorage) (url : String) : String :=
  let domain := extractDomain url
  if domain = "" then ""
  else
    match getJar st domain with
    | none => ""
    | some obj => stringifyCookie obj

/-- Optional Uptime Kuma block of the configuration record. -/
structure UptimeKumaConfig where
  pushUrl : String
  enabled : Bool
deriving DecidableEq, Repr

/-- The resolved configuration record `Config` of `src/index.ts` (the parts
the core reads; absent optional URLs are the empty string, as in the
source). -/
structure Config where
  spaceUrl : String
  targetUrl : String
  cookie : String
  interval : Nat
  expectedStatusCodes : List Nat
  maxRetries : Nat
  uptimeKuma : Option UptimeKumaConfig
deriving DecidableEq, Repr

/-- Embeds `initCookie()` (`src/index.ts` lines 222-262): parses the seed
cookie string and stores a copy of it under every distinct domain of the
configured URLs. -/
def initCookie (cfg : Config) : CookieStorage :=
  let urls := (if cfg.spaceUrl ≠ "" then [cfg.spaceUrl] else []) ++
    (if cfg.targetUrl ≠ "" then [cfg.targetUrl] else [])
  let domains := ((urls.map extractDomain).filter (fun d => d ≠ "")).eraseDups
  let cookieObj := parseCookie cfg.cookie
  domains.foldl (fun stor domain => setJar stor domain cookieObj) []

/-- A cookie name that survives the header round trip: non-empty, and free
of `;`, `=` and spaces (the characters the cookie grammar reserves). -/
def validCookieName (s : String) : Prop :=
  s.data ≠ [] ∧ ∀ c ∈ s.data, c ≠ ';' ∧ c ≠ '=' ∧ c ≠ ' '

/-- A cookie value that survives the header round trip unencoded: free of
`;` and spaces. -/
def validCookieValue (s : String) : Prop :=
  ∀ c ∈ s.data, c ≠ ';' ∧ c ≠ ' '

instance (s : String) : Decidable (validCookieName s) := by
  unfold validCookieName; infer_instance

instance (s : String) : Decidable (validCookieValue s) := by
  unfold validCookieValue; infer_instance

/-- An HTML element as seen through the external cheerio selector engine:
tag name, class list, attribute list. -/
structure HtmlElement where
  tag : String
  classes : List String
  attrs : List (String × String)
deriving DecidableEq, Repr

/-- A wrapper-page body as consumed through cheerio: the document's elements
in document order. -/
abbrev HtmlDoc := List HtmlElement

/-- Attribute lookup, modelling cheerio's `element.attr(name)`. -/
def findAttr (attrs : List (String × String)) (name : String) : Option String :=
  match attrs with
  | [] => none
  | (n, v) :: rest => if n = name then some v else findAttr rest name

/-- The cheerio selector `iframe.space-iframe` applied to one element. -/
def isSpaceIframe (el : HtmlElement) : Bool :=
  el.tag == "iframe" && el.classes.contains "space-iframe"

/-- First element matched by `$("iframe.space-iframe")`. -/
def findSpaceIframe (doc : HtmlDoc) : Option HtmlElement :=
  doc.find? isSpaceIframe

/-- Embeds `extractIframeUrl(html)` (`src/index.ts` lines 398-420): `none`
when no `iframe.space-iframe` element exists, when the element has no `src`
attribute, or when the attribute is empty (the JavaScript `!src` test);
otherwise the `src` value. -/
def extractIframeUrl (doc : HtmlDoc) : Option String :=
  match findSpaceIframe doc with
  | none => none
  | some iframe =>
    match findAttr iframe.attrs "src" with
    | none => none
    | some src => if src = "" then none else some src

/-- What the wrapper-page fetch of `getIframeUrl` produced: a transport
error (anything the surrounding try/catch catches), or a response with a
status code, a body (as seen through cheerio), and its `Set-Cookie`
directives. -/
inductive WrapperOutcome
  | transportError
  | response (statusCode : Nat) (doc : HtmlDoc) (setCookies : List SetCookieDirective)
deriving DecidableEq, Repr

/-- Embeds `getIframeUrl()` (`src/index.ts` lines 426-486): on a response,
apply the `Set-Cookie` updates for the space URL, then return `none` for a
non-200 status and the extracted iframe URL otherwise; on a transport error
return `none`.  The first component is the updated cookie storage. -/
def getIframeUrl (cfg : Config) (st : CookieStorage) (w : WrapperOutcome) :
    CookieStorage × Option String :=
  match w with
  | WrapperOutcome.transportError => (st, none)
  | WrapperOutcome.response statusCode doc setCookies =>
    let st1 := if setCookies.isEmpty then st
      else (updateCookies st cfg.spaceUrl setCookies).storage
    if statusCode ≠ 200 then (st1, none)
    else (st1, extractIframeUrl doc)

/-- The target-resolution step at the head of a `keepAlive` attempt
(`src/index.ts` lines 519-543): consult the wrapper page only when a space
URL is configured, and fall back to the configured direct target URL when
that yields nothing.  `none` means no usable target URL this attempt. -/
def resolveTarget (cfg : Config) (st : CookieStorage) (w : WrapperOutcome) :
    CookieStorage × Option String :=
  let fetched := if cfg.spaceUrl ≠ "" then getIframeUrl cfg st w else (st, none)
  (fetched.1,
    match fetched.2 with
    | some u => some u
    | none => if cfg.targetUrl ≠ "" then some cfg.targetUrl else none)

/-- The kinds of transport error the catch block of `keepAlive`
distinguishes (`src/index.ts` lines 636-679). -/
inductive ErrorKind
  | timeout
  | connect
  | other (msg : String)
  | nonError
deriving DecidableEq, Repr

/-- The "down" message the catch block pushes for each transport error
kind. -/
def transportMsg : ErrorKind → String
  | ErrorKind.timeout => "请求超时"
  | ErrorKind.connect => "网络错误：无法连接"
  | ErrorKind.other msg => "未知错误：" ++ msg
  | ErrorKind.nonError => "未知错误"

/-- What the GET to the resolved target produced this attempt. -/
inductive TargetOutcome
  | transportError (kind : ErrorKind)
  | response (statusCode : Nat) (body : String) (setCookies : List SetCookieDirective)
deriving DecidableEq, Repr

/-- Everything the outside world contributes to one attempt of the retry
loop.  The three durations model the wall clock: `resolveDur` elapses
between the attempt's `startTime` reading and the issuing of the target
request (this spans the whole wrapper-page resolution), `headerDur` between
issuing the request and `request` resolving (response headers received), and
`bodyDur` between the headers and `response.body.text()` completing. -/
structure AttemptWorld where
  wrapper : WrapperOutcome
  target : TargetOutcome
  resolveDur : Nat
  headerDur : Nat
  bodyDur : Nat
deriving DecidableEq, Repr

/-- How one attempt of the retry loop ended. -/
inductive AttemptResult
  | noTarget
  | success (responseTime : Nat)
  | contentFailure (statusCode responseTime : Nat)
  | unexpectedStatus (statusCode responseTime : Nat)
  | transportError (kind : ErrorKind)
deriving DecidableEq, Repr

/-- One attempt of the `keepAlive` retry loop up to (but excluding) the
retry/notify decision (`src/index.ts` lines 518-586): resolve the target,
issue the GET, apply cookie updates, and classify the response.  The
`responseTime` of a response is `Date.now() - startTime` taken when
`request` resolves, hence `resolveDur + headerDur`. -/
def attemptStep (cfg : Config) (st : CookieStorage) (w : AttemptWorld) :
    CookieStorage × AttemptResult :=
  let resolved := resolveTarget cfg st w.wrapper
  match resolved.2 with
  | none => (resolved.1, AttemptResult.noTarget)
  | some targetUrl =>
    match w.target with
    | TargetOutcome.transportError kind => (resolved.1, AttemptResult.transportError kind)
    | TargetOutcome.response statusCode body setCookies =>
      let responseTime := w.resolveDur + w.headerDur
      let st2 := if setCookies.isEmpty then resolved.1
        else (updateCookies resolved.1 targetUrl setCookies).storage
      let hasFailureMarker := containsFailureMarker body
      let isExpectedStatusCode := cfg.expectedStatusCodes.contains statusCode
      if hasFailureMarker then (st2, AttemptResult.contentFailure statusCode responseTime)
      else if !isExpectedStatusCode then
        (st2, AttemptResult.unexpectedStatus statusCode responseTime)
      else (st2, AttemptResult.success responseTime)

/-- Status argument of `pushToUptimeKuma`. -/
inductive PushStatus
  | up
  | down
deriving DecidableEq, Repr

/-- One call of `pushToUptimeKuma(status, msg, ping)`. -/
structure Report where
  status : PushStatus
  msg : String
  ping : Option Nat
deriving DecidableEq, Repr

/-- Body of the monitor's HTTP answer, as far as `pushToUptimeKuma` reads
it. -/
inductive KumaBody
  | notJson
  | json (ok : Bool) (msg : String)
deriving DecidableEq, Repr

/-- What the network does with the monitor push request. -/
inductive KumaOutcome
  | transportError (msg : String)
  | response (statusCode : Nat) (body : KumaBody)
deriving DecidableEq, Repr

/-- The observable ways a completed (uncaught) monitor push ends. -/
inductive PushLog
  | pushOk
  | pushRejected (msg : String)
  | httpFailure (statusCode : Nat)
deriving DecidableEq, Repr

/-- The try-block of `pushToUptimeKuma` (`src/index.ts` lines 349-381):
`Except.error` models a thrown exception (transport error, or `JSON.parse`
failing on a 200 response). -/
def pushRequest : KumaOutcome → Except String PushLog
  | KumaOutcome.transportError msg => Except.error msg
  | KumaOutcome.response statusCode body =>
    if statusCode = 200 then
      match body with
      | KumaBody.notJson => Except.error "JSON parse error"
      | KumaBody.json ok msg =>
        if ok then Except.ok PushLog.pushOk else Except.ok (PushLog.pushRejected msg)
    else Except.ok (PushLog.httpFailure statusCode)

/-- What one `pushToUptimeKuma` call did. -/
inductive PushEffect
  | skipped
  | completed (rep : Report) (log : PushLog)
  | caught (rep : Report) (err : String)
deriving DecidableEq, Repr

/-- Embeds `pushToUptimeKuma` (`src/index.ts` lines 338-389): a no-op when
the monitor is not configured or disabled; otherwise one push attempt whose
failures (non-200, rejected push, parse error, transport error) are logged
and swallowed — the function always returns an effect, never an
exception. -/
def pushToUptimeKuma (cfg : Config) (rep : Report) (net : KumaOutcome) : PushEffect :=
  match cfg.uptimeKuma with
  | none => PushEffect.skipped
  | some k =>
    if k.enabled then
      match pushRequest net with
      | Except.ok log => PushEffect.completed rep log
      | Except.error e => PushEffect.caught rep e
    else PushEffect.skipped

/-- Exhaustion kinds for a cycle that used up its retries. -/
inductive ExhaustKind
  | content
  | unexpected
  | transport
deriving DecidableEq, Repr

/-- Terminal state of one poll cycle. -/
inductive CycleEnd
  | succeeded
  | exhausted (kind : ExhaustKind)
  | noTarget
  | fellThrough
deriving DecidableEq, Repr

/-- Observable outcome of one poll cycle: final cookie storage, number of
attempts started, the inter-retry delays performed (in order, in
milliseconds), the notifications handed to the health notifier (in order),
the effect each notification had, and the terminal state. -/
structure LoopResult where
  storage : CookieStorage
  attempts : Nat
  sleeps : List Nat
  reports : List Report
  effects : List PushEffect
  ending : CycleEnd
deriving DecidableEq, Repr

/-- The retry loop of `keepAlive` (`src/index.ts` lines 513-687).  `worlds`
supplies each attempt's network outcomes, `net` the network outcome of the
cycle's single monitor push; `attempt` is the 1-based loop counter and the
last argument the number of loop iterations left (`maxRetries - attempt + 1`
at every call). -/
def keepAliveLoop (cfg : Config) (worlds : Nat → AttemptWorld) (net : KumaOutcome)
    (st : CookieStorage) (attempt : Nat) : Nat → LoopResult
  | 0 => ⟨st, 0, [], [], [], CycleEnd.fellThrough⟩
  | remaining + 1 =>
    let st1 := (attemptStep cfg st (worlds attempt)).1
    match (attemptStep cfg st (worlds attempt)).2 with
    | AttemptResult.noTarget =>
      let rep : Report := ⟨PushStatus.down, "无法获取目标 URL", none⟩
      ⟨st1, 1, [], [rep], [pushToUptimeKuma cfg rep net], CycleEnd.noTarget⟩
    | AttemptResult.success t =>
      let rep : Report := ⟨PushStatus.up, "OK", some t⟩
      ⟨st1, 1, [], [rep], [pushToUptimeKuma cfg rep net], CycleEnd.succeeded⟩
    | AttemptResult.contentFailure statusCode _ =>
      if attempt < cfg.maxRetries then
        let r := keepAliveLoop cfg worlds net st1 (attempt + 1) remaining
        ⟨r.storage, r.attempts + 1, 2000 :: r.sleeps, r.reports, r.effects, r.ending⟩
      else
        let rep : Report :=
          ⟨PushStatus.down, "保活失败：检测到失败标记 (HTTP " ++ toString statusCode ++ ")", none⟩
        ⟨st1, 1, [], [rep], [pushToUptimeKuma cfg rep net],
          CycleEnd.exhausted ExhaustKind.content⟩
    | AttemptResult.unexpectedStatus statusCode t =>
      if attempt < cfg.maxRetries then
        let r := keepAliveLoop cfg worlds net st1 (attempt + 1) remaining
        ⟨r.storage, r.attempts + 1, 2000 :: r.sleeps, r.reports, r.effects, r.ending⟩
      else
        let rep : Report := ⟨PushStatus.down, "非预期状态码：" ++ toString statusCode, some t⟩
        ⟨st1, 1, [], [rep], [pushToUptimeKuma cfg rep net],
          CycleEnd.exhausted ExhaustKind.unexpected⟩
    | AttemptResult.transportError kind =>
      if attempt < cfg.maxRetries then
        let r := keepAliveLoop cfg worlds net st1 (attempt + 1) remaining
        ⟨r.storage, r.attempts + 1, 2000 :: r.sleeps, r.reports, r.effects, r.ending⟩
      else
        let rep : Report := ⟨PushStatus.down, transportMsg kind, none⟩
        ⟨st1, 1, [], [rep], [pushToUptimeKuma cfg rep net],
          CycleEnd.exhausted ExhaustKind.transport⟩

/-- One full `keepAlive()` poll cycle: the retry loop started at attempt 1
with `maxRetries` iterations available. -/
def keepAlive (cfg : Config) (worlds : Nat → AttemptWorld) (net : KumaOutcome)
    (st : CookieStorage) : LoopResult :=
  keepAliveLoop cfg worlds net st 1 cfg.maxRetries

/-- Attempt results the retry policy retries (`lastError` cases). -/
def AttemptResult.isRetryable : AttemptResult → Bool
  | AttemptResult.contentFailure _ _ => true
  | AttemptResult.unexpectedStatus _ _ => true
  | AttemptResult.transportError _ => true
  | AttemptResult.noTarget => false
  | AttemptResult.success _ => false

/-- The terminal state a cycle reaches when its last attempt ends with the
given result. -/
def endOf : AttemptResult → CycleEnd
  | AttemptResult.contentFailure _ _ => CycleEnd.exhausted ExhaustKind.content
  | AttemptResult.unexpectedStatus _ _ => CycleEnd.exhausted ExhaustKind.unexpected
  | AttemptResult.transportError _ => CycleEnd.exhausted ExhaustKind.transport
  | AttemptResult.noTarget => CycleEnd.noTarget
  | AttemptResult.success _ => CycleEnd.succeeded

/-- The notification a cycle pushes when its last attempt ends with the
given result. -/
def terminalReport : AttemptResult → Report
  | AttemptResult.contentFailure s _ =>
    ⟨PushStatus.down, "保活失败：检测到失败标记 (HTTP " ++ toString s ++ ")", none⟩
  | AttemptResult.unexpectedStatus s t => ⟨PushStatus.down, "非预期状态码：" ++ toString s, some t⟩
  | AttemptResult.transportError kind => ⟨PushStatus.down, transportMsg kind, none⟩
  | AttemptResult.noTarget => ⟨PushStatus.down, "无法获取目标 URL", none⟩
  | AttemptResult.success t => ⟨PushStatus.up, "OK", some t⟩

/-- The latency window the specification describes for the terminal
notification: from just before the final request is issued until the
response body is fully read. -/
def claimedTerminalLatency (w : AttemptWorld) : Nat :=
  w.headerDur + w.bodyDur

/-- A cycle outcome with the monitor-push effects erased; used to state that
the monitor's behaviour influences nothing else about a cycle. -/
def eraseEffects (r : LoopResult) : LoopResult :=
  { r with effects := [] }

theorem getEntry_setEntry_self (obj : CookieObject) (name value : String) :
    getEntry (setEntry obj name value) name = some value := by
  induction obj with
  | nil => simp [setEntry, getEntry]
  | cons p rest ih =>
    by_cases h : p.1 = name
    · simp [setEntry, getEntry, h]
    · simp [setEntry, getEntry, h, ih]

theorem getJar_setJar_self (st : CookieStorage) (domain : String) (obj : CookieObject) :
    getJar (setJar st domain obj) domain = some obj := by
  induction st with
  | nil => simp [setJar, getJar]
  | cons p rest ih =>
    by_cases h : p.1 = domain
    · simp [setJar, getJar, h]
    · simp [setJar, getJar, h, ih]

theorem getJar_setJar_other (st : CookieStorage) (domain d : String) (obj : CookieObject)
    (h : d ≠ domain) : getJar (setJar st domain obj) d = getJar st d := by
  induction st with
  | nil => simp [setJar, getJar, Ne.symm h]
  | cons p rest ih =>
    by_cases hp : p.1 = domain
    · rcases p with ⟨pd, pobj⟩
      simp only at hp
      subst hp
      simp [setJar, getJar, Ne.symm h]
    · simp only [setJar, getJar, hp, if_false]
      by_cases hd : p.1 = d <;> simp [getJar, hd, ih]

theorem getJar_setJarValue_self (st : CookieStorage) (domain name value : String) :
    getJar (setJarValue st domain name value) domain =
      some (setEntry ((getJar st domain).getD []) name value) := by
  simp [setJarValue, getJar_setJar_self]

theorem getJar_setJarValue_other (st : CookieStorage) (domain d name value : String)
    (h : d ≠ domain) : getJar (setJarValue st domain name value) d = getJar st d := by
  simp [setJarValue, getJar_setJar_other st domain d _ h]

theorem applyDirectives_malformed_middle (domain : String)
    (xs ys : List SetCookieDirective) : ∀ st : CookieStorage,
    applyDirectives domain st (xs ++ SetCookieDirective.malformed :: ys) =
      ((applyDirectives domain st (xs ++ ys)).1,
       (applyDirectives domain st (xs ++ ys)).2.1,
       (applyDirectives domain st (xs ++ ys)).2.2 + 1) := by
  induction xs with
  | nil => intro st; simp [applyDirectives]
  | cons d rest ih =>
    intro st
    cases d with
    | malformed => simp [applyDirectives, ih]
    | parsed n v =>
      by_cases h : n ≠ "" ∧ v ≠ "" <;> simp [applyDirectives, h, ih]

theorem applyDirectives_ignored_middle (domain n v : String)
    (xs ys : List SetCookieDirective) (hnv : ¬(n ≠ "" ∧ v ≠ "")) :
    ∀ st : CookieStorage,
    applyDirectives domain st (xs ++ SetCookieDirective.parsed n v :: ys) =
      applyDirectives domain st (xs ++ ys) := by
  induction xs with
  | nil => intro st; simp [applyDirectives, hnv]
  | cons d rest ih =>
    intro st
    cases d with
    | malformed => simp [applyDirectives, ih]
    | parsed n2 v2 =>
      by_cases h : n2 ≠ "" ∧ v2 ≠ "" <;> simp [applyDirectives, h, ih]

theorem applyDirectives_last_parsed (domain n v : String)
    (xs : List SetCookieDirective) (hn : n ≠ "") (hv : v ≠ "") :
    ∀ st : CookieStorage,
    (applyDirectives domain st (xs ++ [SetCookieDirective.parsed n v])).1 =
      setJarValue (applyDirectives domain st xs).1 domain n v := by
  induction xs with
  | nil => intro st; simp [applyDirectives, hn, hv]
  | cons d rest ih =>
    intro st
    cases d with
    | malformed => simp [applyDirectives, ih]
    | parsed n2 v2 =>
      by_cases h : n2 ≠ "" ∧ v2 ≠ "" <;> simp [applyDirectives, h, ih]

theorem getIframeUrl_snd (cfg : Config) (st st' : CookieStorage) (w : WrapperOutcome) :
    (getIframeUrl cfg st w).2 = (getIframeUrl cfg st' w).2 := by
  cases w with
  | transportError => rfl
  | response statusCode doc setCookies =>
    by_cases h : statusCode ≠ 200 <;> simp [getIframeUrl, h]

theorem resolveTarget_snd (cfg : Config) (st st' : CookieStorage) (w : WrapperOutcome) :
    (resolveTarget cfg st w).2 = (resolveTarget cfg st' w).2 := by
  by_cases h : cfg.spaceUrl ≠ ""
  · simp only [resolveTarget, if_pos h]
    rw [getIframeUrl_snd cfg st st' w]
  · simp [resolveTarget, h]

theorem attemptStep_snd (cfg : Config) (st st' : CookieStorage) (w : AttemptWorld) :
    (attemptStep cfg st w).2 = (attemptStep cfg st' w).2 := by
  have hres := resolveTarget_snd cfg st st' w.wrapper
  simp only [attemptStep]
  rcases hcase : (resolveTarget cfg st w.wrapper).2 with _ | targetUrl <;>
    rw [hcase] at hres <;> rw [← hres]
  cases w.target with
  | transportError kind => rfl
  | response statusCode body setCookies =>
    by_cases h1 : containsFailureMarker body <;>
      by_cases h2 : statusCode ∈ cfg.expectedStatusCodes <;>
        simp [h1, h2, apply_ite]

theorem attemptStep_success_time (cfg : Config) (st : CookieStorage) (w : AttemptWorld)
    (t : Nat) (h : (attemptStep cfg st w).2 = AttemptResult.success t) :
    t = w.resolveDur + w.headerDur := by
  simp only [attemptStep] at h
  rcases hcase : (resolveTarget cfg st w.wrapper).2 with _ | targetUrl
  · rw [hcase] at h; simp at h
  · rw [hcase] at h
    cases ht : w.target with
    | transportError kind => rw [ht] at h; simp at h
    | response statusCode body setCookies =>
      rw [ht] at h
      by_cases h1 : containsFailureMarker body <;>
        by_cases h2 : statusCode ∈ cfg.expectedStatusCodes <;>
          simp [h1, h2, apply_ite] at h
      omega

theorem keepAliveLoop_terminal (cfg : Config) (worlds : Nat → AttemptWorld)
    (net : KumaOutcome) (st : CookieStorage) (attempt remaining : Nat)
    (res : AttemptResult) (hres : (attemptStep cfg st (worlds attempt)).2 = res)
    (hge : ¬(attempt < cfg.maxRetries)) :
    keepAliveLoop cfg worlds net st attempt (remaining + 1) =
      ⟨(attemptStep cfg st (worlds attempt)).1, 1, [], [terminalReport res],
       [pushToUptimeKuma cfg (terminalReport res) net], endOf res⟩ := by
  cases res <;> simp [keepAliveLoop, hres, hge, terminalReport, endOf]

theorem keepAliveLoop_retry (cfg : Config) (worlds : Nat → AttemptWorld)
    (net : KumaOutcome) (st : CookieStorage) (attempt remaining : Nat)
    (hretry : ((attemptStep cfg st (worlds attempt)).2).isRetryable = true)
    (hlt : attempt < cfg.maxRetries) :
    keepAliveLoop cfg worlds net st attempt (remaining + 1) =
      ⟨(keepAliveLoop cfg worlds net (attemptStep cfg st (worlds attempt)).1
          (attempt + 1) remaining).storage,
       (keepAliveLoop cfg worlds net (attemptStep cfg st (worlds attempt)).1
          (attempt + 1) remaining).attempts + 1,
       2000 :: (keepAliveLoop cfg worlds net (attemptStep cfg st (worlds attempt)).1
          (attempt + 1) remaining).sleeps,
       (keepAliveLoop cfg worlds net (attemptStep cfg st (worlds attempt)).1
          (attempt + 1) remaining).reports,
       (keepAliveLoop cfg worlds net (attemptStep cfg st (worlds attempt)).1
          (attempt + 1) remaining).effects,
       (keepAliveLoop cfg worlds net (attemptStep cfg st (worlds attempt)).1
          (attempt + 1) remaining).ending⟩ := by
  rcases hres : (attemptStep cfg st (worlds attempt)).2 with _ | t | ⟨s, t⟩ | ⟨s, t⟩ | kind
  · rw [hres] at hretry; simp [AttemptResult.isRetryable] at hretry
  · rw [hres] at hretry; simp [AttemptResult.isRetryable] at hretry
  · simp [keepAliveLoop, hres, hlt]
  · simp [keepAliveLoop, hres, hlt]
  · simp [keepAliveLoop, hres, hlt]

theorem keepAliveLoop_all_fail (cfg : Config) (worlds : Nat → AttemptWorld)
    (net : KumaOutcome) (lastRes : AttemptResult)
    (hretry : lastRes.isRetryable = true) :
    ∀ (k : Nat) (st : CookieStorage) (attempt : Nat),
      attempt + k = cfg.maxRetries →
      (∀ i, attempt ≤ i → i < cfg.maxRetries →
        ((attemptStep cfg st (worlds i)).2).isRetryable = true) →
      (attemptStep cfg st (worlds cfg.maxRetries)).2 = lastRes →
      ∃ stor, keepAliveLoop cfg worlds net st attempt (k + 1) =
        ⟨stor, k + 1, List.replicate k 2000, [terminalReport lastRes],
         [pushToUptimeKuma cfg (terminalReport lastRes) net], endOf lastRes⟩ := by
  intro k
  induction k with
  | zero =>
    intro st attempt hsum _hpre hlast
    have ha : attempt = cfg.maxRetries := by omega
    subst ha
    exact ⟨(attemptStep cfg st (worlds cfg.maxRetries)).1,
      keepAliveLoop_terminal cfg worlds net st cfg.maxRetries 0 lastRes hlast (by omega)⟩
  | succ k ih =>
    intro st attempt hsum hpre hlast
    have hlt : attempt < cfg.maxRetries := by omega
    have hr := hpre attempt le_rfl hlt
    obtain ⟨stor, hrec⟩ := ih ((attemptStep cfg st (worlds attempt)).1) (attempt + 1)
      (by omega)
      (fun i hi1 hi2 => by
        rw [attemptStep_snd cfg ((attemptStep cfg st (worlds attempt)).1) st (worlds i)]
        exact hpre i (by omega) hi2)
      (by
        rw [attemptStep_snd cfg ((attemptStep cfg st (worlds attempt)).1) st
          (worlds cfg.maxRetries)]
        exact hlast)
    refine ⟨stor, ?_⟩
    rw [keepAliveLoop_retry cfg worlds net st attempt (k + 1) hr hlt, hrec]
    simp [List.replicate_succ]

theorem keepAliveLoop_net (cfg : Config) (worlds : Nat → AttemptWorld)
    (net net2 : KumaOutcome) :
    ∀ (rem : Nat) (st : CookieStorage) (attempt : Nat),
      eraseEffects (keepAliveLoop cfg worlds net st attempt rem) =
        eraseEffects (keepAliveLoop cfg worlds net2 st attempt rem) := by
  intro rem
  induction rem with
  | zero => intro st attempt; rfl
  | succ rem ih =>
    intro st attempt
    have hst := ih ((attemptStep cfg st (worlds attempt)).1) (attempt + 1)
    simp only [eraseEffects, LoopResult.mk.injEq] at hst
    obtain ⟨h1, h2, h3, h4, _h0, h5⟩ := hst
    rcases hres : (attemptStep cfg st (worlds attempt)).2 with _ | t | ⟨s, t⟩ | ⟨s, t⟩ | kind <;>
      simp only [keepAliveLoop, hres] <;>
      first
      | rfl
      | (by_cases hlt : attempt < cfg.maxRetries <;>
          simp [hlt, eraseEffects, LoopResult.mk.injEq, h1, h2, h3, h4, h5])

theorem keepAliveLoop_effects_length (cfg : Config) (worlds : Nat → AttemptWorld)
    (net : KumaOutcome) :
    ∀ (rem : Nat) (st : CookieStorage) (attempt : Nat),
      (keepAliveLoop cfg worlds net st attempt rem).effects.length =
        (keepAliveLoop cfg worlds net st attempt rem).reports.length := by
  intro rem
  induction rem with
  | zero => intro st attempt; rfl
  | succ rem ih =>
    intro st attempt
    rcases hres : (attemptStep cfg st (worlds attempt)).2 with _ | t | ⟨s, t⟩ | ⟨s, t⟩ | kind <;>
      simp only [keepAliveLoop, hres] <;>
      first
      | simp
      | (by_cases hlt : attempt < cfg.maxRetries <;> simp [hlt, ih])

theorem string_data_append (a b : String) : (a ++ b).data = a.data ++ b.data := by
  cases a; cases b; rfl

theorem string_mk_data (s : String) : String.mk s.data = s := rfl

theorem splitOnSemis_no_semi (cs : List Char) (h : ∀ c ∈ cs, c ≠ ';') :
    splitOnSemis cs = [cs] := by
  induction cs with
  | nil => rfl
  | cons c rest ih =>
    have hc : c ≠ ';' := h c (List.mem_cons_self c rest)
    have hr := ih (fun x hx => h x (List.mem_cons_of_mem c hx))
    simp [splitOnSemis, hc, hr]

theorem splitOnSemis_append (xs ys : List Char) (h : ∀ c ∈ xs, c ≠ ';') :
    splitOnSemis (xs ++ ';' :: ys) = xs :: splitOnSemis ys := by
  induction xs with
  | nil => simp [splitOnSemis]
  | cons c rest ih =>
    have hc : c ≠ ';' := h c (List.mem_cons_self c rest)
    have hr := ih (fun x hx => h x (List.mem_cons_of_mem c hx))
    simp [splitOnSemis, hc, hr]

theorem splitFirstEq_append (n v : List Char) (h : ∀ c ∈ n, c ≠ '=') :
    splitFirstEq (n ++ '=' :: v) = some (n, v) := by
  induction n with
  | nil => simp [splitFirstEq]
  | cons c rest ih =>
    have hc : c ≠ '=' := h c (List.mem_cons_self c rest)
    have hr := ih (fun x hx => h x (List.mem_cons_of_mem c hx))
    simp [splitFirstEq, hc, hr]

theorem dropWhile_spaces_eq (cs : List Char) (h : ∀ c ∈ cs, c ≠ ' ') :
    cs.dropWhile (fun c => c == ' ') = cs := by
  cases cs with
  | nil => rfl
  | cons c rest =>
    have hc : c ≠ ' ' := h c (List.mem_cons_self c rest)
    simp [List.dropWhile_cons, hc]

theorem trimSpaces_no_spaces (cs : List Char) (h : ∀ c ∈ cs, c ≠ ' ') :
    trimSpaces cs = cs := by
  unfold trimSpaces
  rw [dropWhile_spaces_eq cs h,
    dropWhile_spaces_eq _ (fun c hc => h c (List.mem_reverse.mp hc)),
    List.reverse_reverse]

theorem trimSpaces_space_cons (cs : List Char) (h : ∀ c ∈ cs, c ≠ ' ') :
    trimSpaces (' ' :: cs) = cs := by
  unfold trimSpaces
  have hdrop : (' ' :: cs).dropWhile (fun c => c == ' ') =
      cs.dropWhile (fun c => c == ' ') := by
    simp [List.dropWhile_cons]
  rw [hdrop, dropWhile_spaces_eq cs h,
    dropWhile_spaces_eq _ (fun c hc => h c (List.mem_reverse.mp hc)),
    List.reverse_reverse]

theorem renderPair_data (p : String × String) :
    (renderPair p).data = p.1.data ++ '=' :: p.2.data := by
  simp [renderPair, string_data_append]

theorem parseSeg_render (pre : List Char) (hpre : pre = [] ∨ pre = [' '])
    (p : String × String) (hn : validCookieName p.1) (hv : validCookieValue p.2) :
    parseSeg (pre ++ (renderPair p).data) = some p := by
  have hnosp : ∀ c ∈ p.1.data ++ '=' :: p.2.data, c ≠ ' ' := by
    intro c hc
    rcases List.mem_append.mp hc with h1 | h2
    · exact (hn.2 c h1).2.2
    · rcases List.mem_cons.mp h2 with rfl | h3
      · decide
      · exact (hv c h3).2
  have hne : ∀ c ∈ p.1.data, c ≠ '=' := fun c h1 => (hn.2 c h1).2.1
  unfold parseSeg
  rw [renderPair_data]
  rcases hpre with rfl | rfl
  · rw [List.nil_append, trimSpaces_no_spaces _ hnosp, splitFirstEq_append _ _ hne]
  · rw [List.singleton_append, trimSpaces_space_cons _ hnosp,
      splitFirstEq_append _ _ hne]

theorem parseCookie_stringifyCookie_aux (p : String × String) (rest : CookieObject) :
    ∀ pre : List Char, (pre = [] ∨ pre = [' ']) →
    (∀ q ∈ p :: rest, validCookieName q.1 ∧ validCookieValue q.2) →
    (splitOnSemis (pre ++ (stringifyCookie (p :: rest)).data)).filterMap parseSeg =
      p :: rest := by
  induction rest generalizing p with
  | nil =>
    intro pre hpre hvalid
    obtain ⟨hn, hv⟩ := hvalid p (List.mem_cons_self p [])
    have hsemi : ∀ c ∈ pre ++ (renderPair p).data, c ≠ ';' := by
      intro c hc
      rcases List.mem_append.mp hc with h1 | h2
      · rcases hpre with rfl | rfl
        · simp at h1
        · rcases List.mem_singleton.mp h1 with rfl; decide
      · rw [renderPair_data] at h2
        rcases List.mem_append.mp h2 with h3 | h4
        · exact (hn.2 c h3).1
        · rcases List.mem_cons.mp h4 with rfl | h5
          · decide
          · exact (hv c h5).1
    show (splitOnSemis (pre ++ (renderPair p).data)).filterMap parseSeg = [p]
    rw [splitOnSemis_no_semi _ hsemi]
    simp [List.filterMap_cons, parseSeg_render pre hpre p hn hv]
  | cons q rest2 ih =>
    intro pre hpre hvalid
    obtain ⟨hn, hv⟩ := hvalid p (List.mem_cons_self p (q :: rest2))
    have hsemi : ∀ c ∈ pre ++ (renderPair p).data, c ≠ ';' := by
      intro c hc
      rcases List.mem_append.mp hc with h1 | h2
      · rcases hpre with rfl | rfl
        · simp at h1
        · rcases List.mem_singleton.mp h1 with rfl; decide
      · rw [renderPair_data] at h2
        rcases List.mem_append.mp h2 with h3 | h4
        · exact (hn.2 c h3).1
        · rcases List.mem_cons.mp h4 with rfl | h5
          · decide
          · exact (hv c h5).1
    have hdata : pre ++ (stringifyCookie (p :: q :: rest2)).data =
        (pre ++ (renderPair p).data) ++ ';' ::
          (' ' :: (stringifyCookie (q :: rest2)).data) := by
      show pre ++ ((renderPair p ++ "; " ++ stringifyCookie (q :: rest2)) : String).data = _
      rw [string_data_append, string_data_append]
      simp [List.append_assoc]
    rw [hdata, splitOnSemis_append _ _ hsemi]
    rw [List.filterMap_cons, parseSeg_render pre hpre p hn hv]
    have htail := ih q [' '] (Or.inr rfl)
      (fun r hr => hvalid r (List.mem_cons_of_mem p hr))
    rw [List.singleton_append] at htail
    rw [htail]

theorem parseCookie_stringifyCookie (obj : CookieObject)
    (h : ∀ p ∈ obj, validCookieName p.1 ∧ validCookieValue p.2) :
    parseCookie (stringifyCookie obj) = obj := by
  cases obj with
  | nil => rfl
  | cons p rest =>
    have := parseCookie_stringifyCookie_aux p rest [] (Or.inl rfl) h
    rw [List.nil_append] at this
    exact this

/-- Claim C1: the failure classifier decides in a fixed order — for every
response body and status code, a body containing any literal failure marker
classifies as ContentFailure regardless of the status code (even when the
status code is in the expected set); otherwise a status code outside the
expected set classifies as UnexpectedStatus; otherwise the outcome is
Success. -/
theorem classify_decision_order (expectedStatusCodes : List Nat)
    (responseBody : String) (statusCode : Nat) :
    (containsFailureMarker responseBody = true →
      classify expectedStatusCodes responseBody statusCode = Outcome.contentFailure)
    ∧ (containsFailureMarker responseBody = false →
        expectedStatusCodes.contains statusCode = false →
        classify expectedStatusCodes responseBody statusCode = Outcome.unexpectedStatus)
    ∧ (containsFailureMarker responseBody = false →
        expectedStatusCodes.contains statusCode = true →
        classify expectedStatusCodes responseBody statusCode = Outcome.success) :=
  ⟨fun h1 => by simp [classify, h1],
   fun h1 h2 => by
    have h3 : statusCode ∉ expectedStatusCodes := by simpa using h2
    simp [classify, h1, h3],
   fun h1 h2 => by
    have h3 : statusCode ∈ expectedStatusCodes := by simpa using h2
    simp [classify, h1, h3]⟩

/-- Witness for C1: a body holding the first failure marker classifies as
ContentFailure even at the expected status 200; a clean body classifies by
status membership. -/
theorem classify_decision_order_witness :
    classify [200] "Sorry, we can\x27t find the page you are looking for." 200 =
        Outcome.contentFailure
    ∧ classify [200] "It works" 503 = Outcome.unexpectedStatus
    ∧ classify [200] "It works" 200 = Outcome.success :=
  ⟨(classify_decision_order [200]
      "Sorry, we can\x27t find the page you are looking for." 200).1 (by decide),
   (classify_decision_order [200] "It works" 503).2.1 (by decide) (by decide),
   (classify_decision_order [200] "It works" 200).2.2 (by decide) (by decide)⟩

/-- Claim C4: target resolution returns the `src` of the wrapper page's
`iframe.space-iframe` element when present, and the configured fallback
direct target URL when the distinguished element (or its `src` attribute) is
absent. -/
theorem resolveTarget_iframe (cfg : Config) (st : CookieStorage) (doc : HtmlDoc)
    (sc : List SetCookieDirective) (el : HtmlElement) (src : String)
    (hsp : cfg.spaceUrl ≠ "") :
    (findSpaceIframe doc = some el → findAttr el.attrs "src" = some src → src ≠ "" →
      (resolveTarget cfg st (WrapperOutcome.response 200 doc sc)).2 = some src)
    ∧ (findSpaceIframe doc = none → cfg.targetUrl ≠ "" →
      (resolveTarget cfg st (WrapperOutcome.response 200 doc sc)).2 = some cfg.targetUrl)
    ∧ (findSpaceIframe doc = some el → findAttr el.attrs "src" = none →
        cfg.targetUrl ≠ "" →
      (resolveTarget cfg st (WrapperOutcome.response 200 doc sc)).2 = some cfg.targetUrl) := by
  refine ⟨?_, ?_, ?_⟩
  · intro h1 h2 h3
    simp [resolveTarget, getIframeUrl, extractIframeUrl, hsp, h1, h2, h3]
  · intro h1 h2
    simp [resolveTarget, getIframeUrl, extractIframeUrl, hsp, h1, h2]
  · intro h1 h2 h3
    simp [resolveTarget, getIframeUrl, extractIframeUrl, hsp, h1, h2, h3]

/-- Wrapper-page configuration used by the C4 witness. -/
def cfgW4 : Config :=
  ⟨"https://huggingface.co/spaces/u/s", "https://fallback.example/", "spaces-jwt=abc",
   30000, [200], 5, none⟩

/-- The distinguished iframe element of the C4 witness. -/
def elW4 : HtmlElement :=
  ⟨"iframe", ["space-iframe"], [("src", "https://u-s.example/?__sign=tok")]⟩

/-- Wrapper-page body with the distinguished iframe, for the C4 witness. -/
def docW4 : HtmlDoc := [⟨"div", ["prose"], []⟩, elW4]

/-- Wrapper-page body without the distinguished iframe, for the C4
witness. -/
def docW4none : HtmlDoc := [⟨"div", ["prose"], []⟩]

/-- Witness for C4: a concrete wrapper page body with the iframe resolves to
its `src`; the same body without the iframe resolves to the fallback URL. -/
theorem resolveTarget_iframe_witness :
    (resolveTarget cfgW4 [] (WrapperOutcome.response 200 docW4 [])).2 =
        some "https://u-s.example/?__sign=tok"
    ∧ (resolveTarget cfgW4 [] (WrapperOutcome.response 200 docW4none [])).2 =
        some "https://fallback.example/" :=
  ⟨(resolveTarget_iframe cfgW4 [] docW4 [] elW4 "https://u-s.example/?__sign=tok"
      (by decide)).1 (by decide) (by decide) (by decide),
   (resolveTarget_iframe cfgW4 [] docW4none [] elW4 "unused" (by decide)).2.1
      (by decide) (by decide)⟩

/-- Claim C6: applying a `Set-Cookie` directive `spaces-jwt=abc` to an
origin whose jar entry is empty (or absent) yields exactly the entry
`{spaces-jwt: abc}` for that origin, and every other origin's jar entry is
unchanged. -/
theorem updateCookies_origin_isolation (st : CookieStorage) (url : String)
    (hdom : extractDomain url ≠ "")
    (hempty : getJar st (extractDomain url) = none ∨
      getJar st (extractDomain url) = some []) :
    getJar (updateCookies st url [SetCookieDirective.parsed "spaces-jwt" "abc"]).storage
        (extractDomain url) = some [("spaces-jwt", "abc")]
    ∧ ∀ d, d ≠ extractDomain url →
        getJar (updateCookies st url
            [SetCookieDirective.parsed "spaces-jwt" "abc"]).storage d = getJar st d := by
  have hc : ("spaces-jwt" : String) ≠ "" ∧ ("abc" : String) ≠ "" := by decide
  rcases hempty with he | he
  · constructor
    · simp only [updateCookies, if_neg hdom, he, applyDirectives, if_pos hc]
      rw [getJar_setJarValue_self, getJar_setJar_self]
      rfl
    · intro d hd
      simp only [updateCookies, if_neg hdom, he, applyDirectives, if_pos hc]
      rw [getJar_setJarValue_other _ _ _ _ _ hd, getJar_setJar_other _ _ _ _ hd]
  · constructor
    · simp only [updateCookies, if_neg hdom, he, applyDirectives, if_pos hc]
      rw [getJar_setJarValue_self, he]
      rfl
    · intro d hd
      simp only [updateCookies, if_neg hdom, he, applyDirectives, if_pos hc]
      rw [getJar_setJarValue_other _ _ _ _ _ hd]

/-- Witness for C6: storage holding another origin's cookies and an empty
entry for `x.example`; the update touches `x.example` only. -/
theorem updateCookies_origin_isolation_witness :
    getJar (updateCookies [("other.example", [("sid", "1")]), ("x.example", [])]
        "https://x.example/path"
        [SetCookieDirective.parsed "spaces-jwt" "abc"]).storage "x.example" =
      some [("spaces-jwt", "abc")]
    ∧ getJar (updateCookies [("other.example", [("sid", "1")]), ("x.example", [])]
        "https://x.example/path"
        [SetCookieDirective.parsed "spaces-jwt" "abc"]).storage "other.example" =
      getJar [("other.example", [("sid", "1")]), ("x.example", [])] "other.example" :=
  ⟨(updateCookies_origin_isolation [("other.example", [("sid", "1")]), ("x.example", [])]
      "https://x.example/path" (by decide) (Or.inr (by decide))).1,
   (updateCookies_origin_isolation [("other.example", [("sid", "1")]), ("x.example", [])]
      "https://x.example/path" (by decide) (Or.inr (by decide))).2 "other.example"
      (by decide)⟩

/-- Claim C9: cookie jar round trip — serializing a jar entry to a cookie
header string and re-parsing that string yields exactly the same
name-to-value set. -/
theorem serializeCookie_roundtrip (st : CookieStorage) (url : String)
    (obj : CookieObject) (hdom : extractDomain url ≠ "")
    (hjar : getJar st (extractDomain url) = some obj)
    (hvalid : ∀ p ∈ obj, validCookieName p.1 ∧ validCookieValue p.2) :
    parseCookie (serializeCookie st url) = obj
    ∧ ∀ q : String × String, q ∈ parseCookie (serializeCookie st url) ↔ q ∈ obj := by
  have hmain : parseCookie (serializeCookie st url) = obj := by
    simp only [serializeCookie, if_neg hdom]
    rw [hjar]
    exact parseCookie_stringifyCookie obj hvalid
  exact ⟨hmain, fun q => by rw [hmain]⟩

/-- Witness for C9: a two-entry jar for `x.example` serializes and re-parses
to itself. -/
theorem serializeCookie_roundtrip_witness :
    parseCookie (serializeCookie
        [("x.example", [("spaces-jwt", "abc"), ("token", "xyz")])]
        "https://x.example/path") = [("spaces-jwt", "abc"), ("token", "xyz")] :=
  (serializeCookie_roundtrip [("x.example", [("spaces-jwt", "abc"), ("token", "xyz")])]
    "https://x.example/path" [("spaces-jwt", "abc"), ("token", "xyz")]
    (by decide) (by decide) (by decide)).1

/-- Claim C5: a `Set-Cookie` batch is processed per directive — a malformed
directive is skipped (counted as a warning) without aborting or changing
anything else; a directive lacking a name or a non-empty value is ignored
silently; a successfully parsed pair overwrites that name's entry in the
origin's jar; and a batch of one malformed plus two well-formed directives
yields exactly two updates and one skip. -/
theorem updateCookies_per_directive (st : CookieStorage) (url : String)
    (xs ys : List SetCookieDirective) (n v n2 v2 : String)
    (hdom : extractDomain url ≠ "") (hn : n ≠ "") (hv : v ≠ "")
    (hn2 : n2 ≠ "") (hv2 : v2 ≠ "") :
    ((updateCookies st url (xs ++ SetCookieDirective.malformed :: ys)).storage =
        (updateCookies st url (xs ++ ys)).storage
      ∧ (updateCookies st url (xs ++ SetCookieDirective.malformed :: ys)).updateCount =
        (updateCookies st url (xs ++ ys)).updateCount
      ∧ (updateCookies st url (xs ++ SetCookieDirective.malformed :: ys)).skipCount =
        (updateCookies st url (xs ++ ys)).skipCount + 1)
    ∧ updateCookies st url (xs ++ SetCookieDirective.parsed n "" :: ys) =
        updateCookies st url (xs ++ ys)
    ∧ updateCookies st url (xs ++ SetCookieDirective.parsed "" v :: ys) =
        updateCookies st url (xs ++ ys)
    ∧ lookupCookie (updateCookies st url (xs ++ [SetCookieDirective.parsed n v])).storage
        (extractDomain url) n = some v
    ∧ (updateCookies st url [SetCookieDirective.parsed n v, SetCookieDirective.malformed,
        SetCookieDirective.parsed n2 v2]).updateCount = 2
    ∧ (updateCookies st url [SetCookieDirective.parsed n v, SetCookieDirective.malformed,
        SetCookieDirective.parsed n2 v2]).skipCount = 1 := by
  have hc : n ≠ "" ∧ v ≠ "" := ⟨hn, hv⟩
  have hc2 : n2 ≠ "" ∧ v2 ≠ "" := ⟨hn2, hv2⟩
  refine ⟨⟨?_, ?_, ?_⟩, ?_, ?_, ?_, ?_, ?_⟩
  · simp only [updateCookies, if_neg hdom,
      applyDirectives_malformed_middle (extractDomain url) xs ys]
  · simp only [updateCookies, if_neg hdom,
      applyDirectives_malformed_middle (extractDomain url) xs ys]
  · simp only [updateCookies, if_neg hdom,
      applyDirectives_malformed_middle (extractDomain url) xs ys]
  · simp only [updateCookies, if_neg hdom,
      applyDirectives_ignored_middle (extractDomain url) n "" xs ys (by simp)]
  · simp only [updateCookies, if_neg hdom,
      applyDirectives_ignored_middle (extractDomain url) "" v xs ys (by simp)]
  · simp only [updateCookies, if_neg hdom,
      applyDirectives_last_parsed (extractDomain url) n v xs hn hv]
    simp only [lookupCookie, getJar_setJarValue_self, getEntry_setEntry_self]
  · simp only [updateCookies, if_neg hdom, applyDirectives, if_pos hc, if_pos hc2]
  · simp only [updateCookies, if_neg hdom, applyDirectives, if_pos hc, if_pos hc2]

/-- Witness for C5: the empty storage, origin `x.example`, and the concrete
batch `a=1`, malformed, `b=2`. -/
theorem updateCookies_per_directive_witness :
    (updateCookies [] "https://x.example/p"
        ([] ++ SetCookieDirective.malformed :: [])).skipCount =
      (updateCookies [] "https://x.example/p" ([] ++ [])).skipCount + 1
    ∧ lookupCookie (updateCookies [] "https://x.example/p"
        ([] ++ [SetCookieDirective.parsed "a" "1"])).storage
        (extractDomain "https://x.example/p") "a" = some "1"
    ∧ (updateCookies [] "https://x.example/p" [SetCookieDirective.parsed "a" "1",
        SetCookieDirective.malformed, SetCookieDirective.parsed "b" "2"]).updateCount = 2
    ∧ (updateCookies [] "https://x.example/p" [SetCookieDirective.parsed "a" "1",
        SetCookieDirective.malformed, SetCookieDirective.parsed "b" "2"]).skipCount = 1 :=
  ⟨(updateCookies_per_directive [] "https://x.example/p" [] [] "a" "1" "b" "2"
      (by decide) (by decide) (by decide) (by decide) (by decide)).1.2.2,
   (updateCookies_per_directive [] "https://x.example/p" [] [] "a" "1" "b" "2"
      (by decide) (by decide) (by decide) (by decide) (by decide)).2.2.2.1,
   (updateCookies_per_directive [] "https://x.example/p" [] [] "a" "1" "b" "2"
      (by decide) (by decide) (by decide) (by decide) (by decide)).2.2.2.2.1,
   (updateCookies_per_directive [] "https://x.example/p" [] [] "a" "1" "b" "2"
      (by decide) (by decide) (by decide) (by decide) (by decide)).2.2.2.2.2⟩

/-- Claim C2: with `maxRetries = 3`, a cycle whose every attempt classifies
as UnexpectedStatus performs exactly 3 attempts, with exactly two fixed
2-second inter-retry delays (after attempts 1 and 2, none after the last),
and ends by issuing exactly one "down" notification. -/
theorem keepAlive_three_unexpected (cfg : Config) (worlds : Nat → AttemptWorld)
    (net : KumaOutcome) (st : CookieStorage) (s t : Nat → Nat)
    (h3 : cfg.maxRetries = 3)
    (h : ∀ i, 1 ≤ i → i ≤ 3 →
      (attemptStep cfg st (worlds i)).2 = AttemptResult.unexpectedStatus (s i) (t i)) :
    (keepAlive cfg worlds net st).attempts = 3
    ∧ (keepAlive cfg worlds net st).sleeps = [2000, 2000]
    ∧ (keepAlive cfg worlds net st).reports =
        [⟨PushStatus.down, "非预期状态码：" ++ toString (s 3), some (t 3)⟩]
    ∧ (keepAlive cfg worlds net st).ending = CycleEnd.exhausted ExhaustKind.unexpected := by
  obtain ⟨stor, hrun⟩ := keepAliveLoop_all_fail cfg worlds net
    (AttemptResult.unexpectedStatus (s 3) (t 3)) rfl 2 st 1 (by omega)
    (fun i h1 h2 => by rw [h i h1 (by omega)]; rfl)
    (by rw [h3]; exact h 3 (by omega) (by omega))
  norm_num at hrun
  unfold keepAlive
  rw [h3, hrun]
  simp [terminalReport, endOf, List.replicate]

/-- Configuration of the C2 witness: no wrapper page, direct target,
`maxRetries = 3`. -/
def cfgW2 : Config := ⟨"", "https://t.example/", "spaces-jwt=abc", 30000, [200], 3, none⟩

/-- Worlds of the C2 witness: every attempt answers 503 with a clean body
(5 ms to issue, 7 ms to headers, 11 ms to body end). -/
def worldsW2 : Nat → AttemptWorld := fun _ =>
  ⟨WrapperOutcome.transportError, TargetOutcome.response 503 "Service Unavailable" [], 5, 7, 11⟩

/-- Witness for C2 at the concrete configuration and worlds. -/
theorem keepAlive_three_unexpected_witness :
    (keepAlive cfgW2 worldsW2 (KumaOutcome.transportError "refused") []).attempts = 3
    ∧ (keepAlive cfgW2 worldsW2 (KumaOutcome.transportError "refused") []).sleeps =
        [2000, 2000]
    ∧ (keepAlive cfgW2 worldsW2 (KumaOutcome.transportError "refused") []).reports =
        [⟨PushStatus.down, "非预期状态码：" ++ toString 503, some 12⟩]
    ∧ (keepAlive cfgW2 worldsW2 (KumaOutcome.transportError "refused") []).ending =
        CycleEnd.exhausted ExhaustKind.unexpected :=
  keepAlive_three_unexpected cfgW2 worldsW2 (KumaOutcome.transportError "refused") []
    (fun _ => 503) (fun _ => 12) rfl (fun i _ _ => rfl)

/-- Configuration of the C3 counterexample: wrapper page configured, no
fallback target URL, `maxRetries = 3`. -/
def cfgC3 : Config :=
  ⟨"https://huggingface.co/spaces/u/s", "", "spaces-jwt=abc", 30000, [200], 3, none⟩

/-- A wrapper-page body without the distinguished iframe (C3). -/
def docC3plain : HtmlDoc := [⟨"div", ["prose"], []⟩]

/-- A wrapper-page body with the distinguished iframe (C3). -/
def docC3iframe : HtmlDoc :=
  [⟨"iframe", ["space-iframe"], [("src", "https://u-s.example/?__sign=tok")]⟩]

/-- Worlds of the C3 counterexample: resolution fails on attempt 1 only;
attempts 2 and 3 would resolve and succeed. -/
def worldsC3 : Nat → AttemptWorld := fun i =>
  match i with
  | 1 => ⟨WrapperOutcome.response 200 docC3plain [], TargetOutcome.response 200 "ok" [], 0, 0, 0⟩
  | _ => ⟨WrapperOutcome.response 200 docC3iframe [], TargetOutcome.response 200 "ok" [], 0, 0, 0⟩

/-- Counterexample to claim C3 as stated: with `maxRetries = 3` and a
resolution failure on attempt 1, the cycle ends after exactly one attempt
with a "down" notification and no retry — although attempt 2 would have
succeeded — contradicting "retried per the retry policy, ending the cycle
Exhausted with a down notification only if all maxRetries attempts fail". -/
theorem keepAlive_noTarget_counterexample :
    keepAlive cfgC3 worldsC3 (KumaOutcome.transportError "refused") [] =
      ⟨[], 1, [], [⟨PushStatus.down, "无法获取目标 URL", none⟩], [PushEffect.skipped],
        CycleEnd.noTarget⟩
    ∧ (attemptStep cfgC3 [] (worldsC3 2)).2 = AttemptResult.success 0
    ∧ cfgC3.maxRetries = 3 := by decide

/-- Claim C3 amended: when a cycle has no usable target URL on its first
attempt, `keepAlive` ends the cycle immediately: exactly one attempt, no
inter-retry delay, a single "down" notification (message 无法获取目标 URL,
no latency), regardless of the retries that remain. -/
theorem keepAlive_noTarget_immediate (cfg : Config) (worlds : Nat → AttemptWorld)
    (net : KumaOutcome) (st : CookieStorage) (hmax : 1 ≤ cfg.maxRetries)
    (h : (attemptStep cfg st (worlds 1)).2 = AttemptResult.noTarget) :
    (keepAlive cfg worlds net st).attempts = 1
    ∧ (keepAlive cfg worlds net st).sleeps = []
    ∧ (keepAlive cfg worlds net st).reports =
        [⟨PushStatus.down, "无法获取目标 URL", none⟩]
    ∧ (keepAlive cfg worlds net st).ending = CycleEnd.noTarget := by
  obtain ⟨k, hk⟩ : ∃ k, cfg.maxRetries = k + 1 := ⟨cfg.maxRetries - 1, by omega⟩
  unfold keepAlive
  rw [hk]
  simp [keepAliveLoop, h]

/-- Witness for the amended C3 at the counterexample's concrete cycle. -/
theorem keepAlive_noTarget_immediate_witness :
    (keepAlive cfgC3 worldsC3 (KumaOutcome.transportError "refused") []).attempts = 1
    ∧ (keepAlive cfgC3 worldsC3 (KumaOutcome.transportError "refused") []).sleeps = []
    ∧ (keepAlive cfgC3 worldsC3 (KumaOutcome.transportError "refused") []).reports =
        [⟨PushStatus.down, "无法获取目标 URL", none⟩]
    ∧ (keepAlive cfgC3 worldsC3 (KumaOutcome.transportError "refused") []).ending =
        CycleEnd.noTarget :=
  keepAlive_noTarget_immediate cfgC3 worldsC3 (KumaOutcome.transportError "refused") []
    (by decide) (by decide)

/-- Claim C7: health-notifier isolation — the push is a no-op when the
monitor is not configured or disabled; a push whose try-block throws
(transport error or unparseable body) is caught and still returns normally;
each notification causes exactly one push effect (never retried); and the
monitor's outcome influences nothing else about the poll cycle: for any two
monitor outcomes the cycle has the same storage, attempts, delays,
notifications, and terminal state. -/
theorem pushToUptimeKuma_isolated (cfg : Config) (worlds : Nat → AttemptWorld)
    (st : CookieStorage) (rep : Report) (net net2 : KumaOutcome)
    (k : UptimeKumaConfig) (e : String) :
    (cfg.uptimeKuma = none → pushToUptimeKuma cfg rep net = PushEffect.skipped)
    ∧ (cfg.uptimeKuma = some k → k.enabled = false →
        pushToUptimeKuma cfg rep net = PushEffect.skipped)
    ∧ (cfg.uptimeKuma = some k → k.enabled = true → pushRequest net = Except.error e →
        pushToUptimeKuma cfg rep net = PushEffect.caught rep e)
    ∧ eraseEffects (keepAlive cfg worlds net st) =
        eraseEffects (keepAlive cfg worlds net2 st)
    ∧ (keepAlive cfg worlds net st).effects.length =
        (keepAlive cfg worlds net st).reports.length := by
  refine ⟨?_, ?_, ?_, ?_, ?_⟩
  · intro h; simp [pushToUptimeKuma, h]
  · intro h hk; simp [pushToUptimeKuma, h, hk]
  · intro h hk he; simp [pushToUptimeKuma, h, hk, he]
  · exact keepAliveLoop_net cfg worlds net net2 cfg.maxRetries st 1
  · exact keepAliveLoop_effects_length cfg worlds net cfg.maxRetries st 1

/-- Monitor-less configuration for the C7 witness. -/
def cfgW7none : Config := ⟨"", "https://t.example/", "spaces-jwt=abc", 30000, [200], 1, none⟩

/-- Disabled-monitor configuration for the C7 witness. -/
def cfgW7off : Config :=
  ⟨"", "https://t.example/", "spaces-jwt=abc", 30000, [200], 1,
   some ⟨"https://kuma.example/api/push/tok", false⟩⟩

/-- Enabled-monitor configuration for the C7 witness. -/
def cfgW7on : Config :=
  ⟨"", "https://t.example/", "spaces-jwt=abc", 30000, [200], 1,
   some ⟨"https://kuma.example/api/push/tok", true⟩⟩

/-- Report pushed in the C7 witness. -/
def repW7 : Report := ⟨PushStatus.up, "OK", some 12⟩

/-- Worlds of the C7 witness: a single successful attempt. -/
def worldsW7 : Nat → AttemptWorld := fun _ =>
  ⟨WrapperOutcome.transportError, TargetOutcome.response 200 "ok" [], 5, 7, 11⟩

/-- Witness for C7: skipped pushes for unconfigured and disabled monitors, a
caught connection-refused push for an enabled monitor, and a concrete
successful cycle unchanged between a failing and a succeeding monitor. -/
theorem pushToUptimeKuma_isolated_witness :
    pushToUptimeKuma cfgW7none repW7 (KumaOutcome.transportError "ECONNREFUSED") =
        PushEffect.skipped
    ∧ pushToUptimeKuma cfgW7off repW7 (KumaOutcome.transportError "ECONNREFUSED") =
        PushEffect.skipped
    ∧ pushToUptimeKuma cfgW7on repW7 (KumaOutcome.transportError "ECONNREFUSED") =
        PushEffect.caught repW7 "ECONNREFUSED"
    ∧ eraseEffects (keepAlive cfgW7on worldsW7
          (KumaOutcome.transportError "ECONNREFUSED") []) =
        eraseEffects (keepAlive cfgW7on worldsW7
          (KumaOutcome.response 200 (KumaBody.json true "ok")) []) :=
  ⟨(pushToUptimeKuma_isolated cfgW7none worldsW7 [] repW7
      (KumaOutcome.transportError "ECONNREFUSED")
      (KumaOutcome.response 200 (KumaBody.json true "ok"))
      ⟨"https://kuma.example/api/push/tok", false⟩ "ECONNREFUSED").1 rfl,
   (pushToUptimeKuma_isolated cfgW7off worldsW7 [] repW7
      (KumaOutcome.transportError "ECONNREFUSED")
      (KumaOutcome.response 200 (KumaBody.json true "ok"))
      ⟨"https://kuma.example/api/push/tok", false⟩ "ECONNREFUSED").2.1 rfl rfl,
   (pushToUptimeKuma_isolated cfgW7on worldsW7 [] repW7
      (KumaOutcome.transportError "ECONNREFUSED")
      (KumaOutcome.response 200 (KumaBody.json true "ok"))
      ⟨"https://kuma.example/api/push/tok", true⟩ "ECONNREFUSED").2.2.1 rfl rfl rfl,
   (pushToUptimeKuma_isolated cfgW7on worldsW7 [] repW7
      (KumaOutcome.transportError "ECONNREFUSED")
      (KumaOutcome.response 200 (KumaBody.json true "ok"))
      ⟨"https://kuma.example/api/push/tok", true⟩ "ECONNREFUSED").2.2.2.1⟩

/-- Configuration of the C8 counterexample: wrapper page configured, default
`maxRetries`. -/
def cfgC8 : Config :=
  ⟨"https://huggingface.co/spaces/u/s", "", "spaces-jwt=abc", 30000, [200], 5, none⟩

/-- Wrapper-page body of the C8 counterexample. -/
def docC8 : HtmlDoc :=
  [⟨"iframe", ["space-iframe"], [("src", "https://u-s.example/?__sign=tok")]⟩]

/-- Worlds of the C8 counterexample: resolution takes 5 ms, headers arrive
7 ms after the request is issued, the body is fully read 11 ms later. -/
def worldsC8 : Nat → AttemptWorld := fun _ =>
  ⟨WrapperOutcome.response 200 docC8 [], TargetOutcome.response 200 "all good" [], 5, 7, 11⟩

/-- Counterexample to claim C8 as stated: the terminal notification reports
12 ms — elapsed from the start of the attempt (5 ms of wrapper resolution
included) until the response headers arrive, before the body is read — while
the window the claim describes (just before the final request is issued
until the body is fully read) is 7 + 11 = 18 ms. -/
theorem keepAlive_latency_counterexample :
    (keepAlive cfgC8 worldsC8 (KumaOutcome.transportError "refused") []).reports =
      [⟨PushStatus.up, "OK", some 12⟩]
    ∧ claimedTerminalLatency (worldsC8 1) = 18
    ∧ (12 : Nat) ≠ 18 := by decide

/-- Claim C8 amended: the latency reported with the terminal notification is
measured from the start of the terminal attempt (target resolution included)
until the response headers are received — the body read is not part of it —
and the latencies of earlier failed attempts are discarded: a cycle whose
attempt 1 fails in transport and whose attempt 2 succeeds reports exactly
`resolveDur + headerDur` of attempt 2. -/
theorem keepAlive_latency_measured (cfg : Config) (worlds : Nat → AttemptWorld)
    (net : KumaOutcome) (st : CookieStorage) (kind : ErrorKind) (t : Nat)
    (h2 : cfg.maxRetries = 2)
    (h1 : (attemptStep cfg st (worlds 1)).2 = AttemptResult.transportError kind)
    (hs : (attemptStep cfg st (worlds 2)).2 = AttemptResult.success t) :
    (keepAlive cfg worlds net st).reports =
      [⟨PushStatus.up, "OK", some ((worlds 2).resolveDur + (worlds 2).headerDur)⟩]
    ∧ (keepAlive cfg worlds net st).attempts = 2
    ∧ (keepAlive cfg worlds net st).sleeps = [2000] := by
  have ht := attemptStep_success_time cfg st (worlds 2) t hs
  have hstep := keepAliveLoop_retry cfg worlds net st 1 1
    (by rw [h1]; rfl) (by omega)
  norm_num at hstep
  have hterm := keepAliveLoop_terminal cfg worlds net
    ((attemptStep cfg st (worlds 1)).1) 2 0 (AttemptResult.success t)
    (by rw [attemptStep_snd cfg ((attemptStep cfg st (worlds 1)).1) st (worlds 2)]
        exact hs)
    (by omega)
  norm_num at hterm
  unfold keepAlive
  rw [h2, hstep, hterm]
  simp [terminalReport, ht]

/-- Configuration of the C8 amended witness: direct target, `maxRetries = 2`. -/
def cfgW8 : Config := ⟨"", "https://t.example/", "spaces-jwt=abc", 30000, [200], 2, none⟩

/-- Worlds of the C8 amended witness: attempt 1 times out; attempt 2
succeeds with 5 ms resolution, 7 ms to headers, 11 ms to body end. -/
def worldsW8 : Nat → AttemptWorld := fun i =>
  match i with
  | 1 => ⟨WrapperOutcome.transportError, TargetOutcome.transportError ErrorKind.timeout, 0, 0, 0⟩
  | _ => ⟨WrapperOutcome.transportError, TargetOutcome.response 200 "all good" [], 5, 7, 11⟩

/-- Witness for the amended C8: the reported latency is attempt 2's
`5 + 7 = 12` ms, attempt 1's latency is gone. -/
theorem keepAlive_latency_measured_witness :
    (keepAlive cfgW8 worldsW8 (KumaOutcome.transportError "refused") []).reports =
      [⟨PushStatus.up, "OK", some ((worldsW8 2).resolveDur + (worldsW8 2).headerDur)⟩]
    ∧ (keepAlive cfgW8 worldsW8 (KumaOutcome.transportError "refused") []).attempts = 2
    ∧ (keepAlive cfgW8 worldsW8 (KumaOutcome.transportError "refused") []).sleeps = [2000] :=
  keepAlive_latency_measured cfgW8 worldsW8 (KumaOutcome.transportError "refused") []
    ErrorKind.timeout 12 rfl (by decide) (by decide)

/-- Claim C10 (implicit): the two exhausted "down" notifications differ in
their latency field — a cycle whose last attempt classifies as
ContentFailure pushes "down" with no latency value, while a cycle whose last
attempt classifies as UnexpectedStatus pushes "down" with the measured
latency of that last attempt. -/
theorem keepAlive_down_latency (cfg : Config) (worlds : Nat → AttemptWorld)
    (net : KumaOutcome) (st : CookieStorage) (s t : Nat)
    (hmax : 1 ≤ cfg.maxRetries)
    (hpre : ∀ i, 1 ≤ i → i < cfg.maxRetries →
      ((attemptStep cfg st (worlds i)).2).isRetryable = true) :
    ((attemptStep cfg st (worlds cfg.maxRetries)).2 = AttemptResult.contentFailure s t →
      (keepAlive cfg worlds net st).reports =
        [⟨PushStatus.down, "保活失败：检测到失败标记 (HTTP " ++ toString s ++ ")", none⟩])
    ∧ ((attemptStep cfg st (worlds cfg.maxRetries)).2 =
          AttemptResult.unexpectedStatus s t →
      (keepAlive cfg worlds net st).reports =
        [⟨PushStatus.down, "非预期状态码：" ++ toString s, some t⟩]) := by
  obtain ⟨k, hk⟩ : ∃ k, cfg.maxRetries = k + 1 := ⟨cfg.maxRetries - 1, by omega⟩
  constructor
  · intro hlast
    obtain ⟨stor, hrun⟩ := keepAliveLoop_all_fail cfg worlds net
      (AttemptResult.contentFailure s t) rfl k st 1 (by omega)
      (fun i hi1 hi2 => hpre i hi1 hi2) hlast
    unfold keepAlive
    rw [hk, hrun]
    simp [terminalReport]
  · intro hlast
    obtain ⟨stor, hrun⟩ := keepAliveLoop_all_fail cfg worlds net
      (AttemptResult.unexpectedStatus s t) rfl k st 1 (by omega)
      (fun i hi1 hi2 => hpre i hi1 hi2) hlast
    unfold keepAlive
    rw [hk, hrun]
    simp [terminalReport]

/-- Configuration of the C10 witness: direct target, `maxRetries = 2`. -/
def cfgW10 : Config := ⟨"", "https://t.example/", "spaces-jwt=abc", 30000, [200], 2, none⟩

/-- C10 witness worlds ending in a content failure: attempt 1 gets a clean
503, attempt 2 a 200 whose body holds the logo failure marker. -/
def worldsW10a : Nat → AttemptWorld := fun i =>
  match i with
  | 2 => ⟨WrapperOutcome.transportError,
      TargetOutcome.response 200
        "page with https://huggingface.co/front/assets/huggingface_logo.svg inside" [],
      2, 3, 7⟩
  | _ => ⟨WrapperOutcome.transportError,
      TargetOutcome.response 503 "Service Unavailable" [], 5, 7, 11⟩

/-- C10 witness worlds ending in an unexpected status: both attempts get a
clean 503. -/
def worldsW10b : Nat → AttemptWorld := fun _ =>
  ⟨WrapperOutcome.transportError, TargetOutcome.response 503 "Service Unavailable" [],
   5, 7, 11⟩

/-- Witness for C10: the content-failure cycle pushes "down" without
latency; the unexpected-status cycle pushes "down" with attempt 2's 12 ms
latency. -/
theorem keepAlive_down_latency_witness :
    (keepAlive cfgW10 worldsW10a (KumaOutcome.transportError "refused") []).reports =
      [⟨PushStatus.down, "保活失败：检测到失败标记 (HTTP " ++ toString 200 ++ ")", none⟩]
    ∧ (keepAlive cfgW10 worldsW10b (KumaOutcome.transportError "refused") []).reports =
      [⟨PushStatus.down, "非预期状态码：" ++ toString 503, some 12⟩] :=
  ⟨(keepAlive_down_latency cfgW10 worldsW10a (KumaOutcome.transportError "refused") []
      200 5 (by decide)
      (fun i hi1 hi2 => by
        have hi : i = 1 := by
          have : cfgW10.maxRetries = 2 := rfl
          omega
        subst hi; decide)).1 (by decide),
   (keepAlive_down_latency cfgW10 worldsW10b (KumaOutcome.transportError "refused") []
      503 12 (by decide)
      (fun i hi1 hi2 => by
        have hi : i = 1 := by
          have : cfgW10.maxRetries = 2 := rfl
          omega
        subst hi; decide)).2 (by decide)⟩

end HugKeepAlive
